import Mathlib

/-!
Shallow embedding of `src/bot.py` (a Telegram gate/reward/broadcast bot).

The SQLite `users` table is modelled as a list of rows (insertion order,
`user_id` is the primary key).  Telegram transport calls are modelled by
oracles supplied as arguments: the outcome of `get_chat_member` is a
`MembershipOutcome`, the success of a send is a `Bool`.  A handler run
produces a new store, the ordered list of outbound transport effects, and
a flag recording whether an exception escaped the handler.
-/

set_option autoImplicit false

namespace TgBot

/-- One row of the `users` table (`init_db`): primary key `user_id`,
optional `username`/`first_name`, `bonus_sent INTEGER DEFAULT 0`. -/
structure UserRow where
  user_id : Int
  username : Option String
  first_name : Option String
  bonus_sent : Nat := 0
  deriving Repr, DecidableEq

/-- The `users` table, rows in insertion (rowid) order. -/
abbrev DB := List UserRow

/-- Python `save_user`: `INSERT OR IGNORE INTO users(user_id, username, first_name)`. -/
def save_user (db : DB) (uid : Int) (un fn : Option String) : DB :=
  if db.any (fun r => r.user_id == uid) then db
  else db ++ [{ user_id := uid, username := un, first_name := fn }]

/-- Python `get_all_user_ids`: `SELECT user_id FROM users`. -/
def get_all_user_ids (db : DB) : List Int :=
  db.map (fun r => r.user_id)

/-- Python `is_bonus_sent`: `SELECT bonus_sent FROM users WHERE user_id=?`,
then `bool(row and row[0] == 1)`. -/
def is_bonus_sent (db : DB) (uid : Int) : Bool :=
  match db.find? (fun r => r.user_id == uid) with
  | some r => r.bonus_sent == 1
  | none => false

/-- Python `mark_bonus_sent`: `UPDATE users SET bonus_sent=1 WHERE user_id=?`. -/
def mark_bonus_sent (db : DB) (uid : Int) : DB :=
  db.map (fun r => if r.user_id == uid then { r with bonus_sent := 1 } else r)

/-- Outcome of the transport call `bot.get_chat_member(REQUIRED_CHANNEL, uid)`:
either it returns a member object with the given `.status` string, or it
raises `TelegramBadRequest`, or it raises some other exception. -/
inductive MembershipOutcome where
  | status (s : String)
  | badRequest
  | otherError
  deriving Repr, DecidableEq

/-- Python `is_subscribed`: returns `member.status in ("creator", "administrator",
"member")`; the `try/except TelegramBadRequest` returns `False` only for
`TelegramBadRequest`; any other exception propagates (`Except.error`). -/
def is_subscribed : MembershipOutcome → Except Unit Bool
  | .status s => .ok (s == "creator" || s == "administrator" || s == "member")
  | .badRequest => .ok false
  | .otherError => .error ()

/-- An outbound effect of a handler run (a Telegram API call made by the
handler). -/
inductive Effect where
  | editText (text : String)
  | answerAlert (text : String)
  | answerMsg (text : String)
  | sendDocument (uid : Int)
  | sendMessage (uid : Int) (text : Option String)
  | sleep
  deriving Repr, DecidableEq

/-- Result of running the `check_sub` callback handler. -/
structure CheckSubResult where
  db : DB
  effects : List Effect
  raised : Bool
  deriving Repr, DecidableEq

/-- The `check_sub` callback handler: check subscription; on success edit
the message and, if the bonus was not yet sent, call `send_bonus_file`
(its success given by the oracle `sendOk`) and then `mark_bonus_sent`.
There is no `try/except` around the bonus send: a failing send raises out
of the handler before `mark_bonus_sent` runs. -/
def check_sub (db : DB) (uid : Int) (member : MembershipOutcome)
    (sendOk : Bool) : CheckSubResult :=
  match is_subscribed member with
  | .error _ => { db := db, effects := [], raised := true }
  | .ok false =>
      { db := db, effects := [.answerAlert "❌ Подписка не найдена!"], raised := false }
  | .ok true =>
      let e0 : List Effect := [.editText "✅ Подписка подтверждена!\nЖми «Открыть меню»."]
      if is_bonus_sent db uid then
        { db := db, effects := e0, raised := false }
      else if sendOk then
        { db := mark_bonus_sent db uid, effects := e0 ++ [.sendDocument uid], raised := false }
      else
        { db := db, effects := e0 ++ [.sendDocument uid], raised := true }

/-- Python `is_admin`: membership in the `ADMINS` allow-list (loaded at startup). -/
def is_admin (admins : List Int) (uid : Int) : Bool :=
  admins.contains uid

/-- The two FSM states of `class Broadcast(StatesGroup)`. -/
inductive BState where
  | waiting_text
  | waiting_confirm
  deriving Repr, DecidableEq

/-- Per-operator FSM context (aiogram `FSMContext` over `MemoryStorage`):
the current state (`none` = no state / Idle) and the value of the data key
`"text"` (`none` = key absent; the stored value is itself optional because
`message.text` can be `None`).  `state.clear()` resets both. -/
structure FsmCtx where
  state : Option BState := none
  dataText : Option (Option String) := none
  deriving Repr, DecidableEq

/-- An inbound Telegram message: sender id and profile fields, and the
text (`none` for a textless message such as a photo or sticker). -/
structure Msg where
  from_user : Int
  username : Option String
  first_name : Option String
  text : Option String
  deriving Repr, DecidableEq

/-- Characters of the first token: everything up to the first space
(argument separator) or `@` (bot-name suffix). -/
def tokenChars : List Char → List Char
  | [] => []
  | c :: cs => if c == ' ' || c == '@' then [] else c :: tokenChars cs

/-- First token of a message text, with a trailing `@botname` stripped —
what aiogram's `Command` filter compares against. -/
def commandToken (s : String) : String :=
  ⟨tokenChars s.data⟩

/-- aiogram `Command(cmd)` filter: the text starts with `/` and its first
token is `/cmd`. -/
def matchesCommand (t : Option String) (cmd : String) : Bool :=
  match t with
  | some s =>
      (match s.data with
        | c :: _ => c == '/'
        | [] => false)
        && commandToken s == "/" ++ cmd
  | none => false

/-- Result of dispatching one inbound message: updated store, updated FSM
context of the sender, outbound effects in order, and whether an exception
escaped the handler. -/
structure StepResult where
  db : DB
  fsm : FsmCtx
  effects : List Effect
  raised : Bool
  deriving Repr, DecidableEq

/-- The `/id` handler. -/
def my_id (db : DB) (fsm : FsmCtx) (m : Msg) : StepResult :=
  { db := db, fsm := fsm,
    effects := [.answerMsg ("Ваш user_id: " ++ toString m.from_user)], raised := false }

/-- The `/start` handler: `save_user`, then gate on `is_subscribed`. -/
def start (db : DB) (fsm : FsmCtx) (m : Msg) (member : MembershipOutcome) : StepResult :=
  let db1 := save_user db m.from_user m.username m.first_name
  match is_subscribed member with
  | .error _ => { db := db1, fsm := fsm, effects := [], raised := true }
  | .ok true =>
      { db := db1, fsm := fsm,
        effects := [.answerMsg "✅ Ты уже подписан! Нажми кнопку ниже:"], raised := false }
  | .ok false =>
      { db := db1, fsm := fsm,
        effects := [.answerMsg "Привет! 👋\n\nЧтобы получить доступ — подпишись на канал и нажми «Проверить подписку»."],
        raised := false }

/-- The `/admin` handler: silent for non-admins. -/
def admin_panel (admins : List Int) (db : DB) (fsm : FsmCtx) (m : Msg) : StepResult :=
  if is_admin admins m.from_user then
    { db := db, fsm := fsm,
      effects := [.answerMsg "🛠 Админ-панель:\n• /stats — статистика\n• /broadcast — рассылка\n• /cancel — отменить"],
      raised := false }
  else
    { db := db, fsm := fsm, effects := [], raised := false }

/-- The `/stats` handler: silent for non-admins. -/
def stats (admins : List Int) (db : DB) (fsm : FsmCtx) (m : Msg) : StepResult :=
  if is_admin admins m.from_user then
    { db := db, fsm := fsm,
      effects := [.answerMsg ("👥 Пользователей в базе: " ++ toString (get_all_user_ids db).length)],
      raised := false }
  else
    { db := db, fsm := fsm, effects := [], raised := false }

/-- The `/broadcast` handler (`broadcast_start`): for a non-admin it
returns before doing anything; for an admin it sets state `waiting_text`
(`set_state` does not touch the data dict) and prompts for the text. -/
def broadcast_start (admins : List Int) (db : DB) (fsm : FsmCtx) (m : Msg) : StepResult :=
  if is_admin admins m.from_user then
    { db := db, fsm := { state := some .waiting_text, dataText := fsm.dataText },
      effects := [.answerMsg "✉️ Пришли текст рассылки."], raised := false }
  else
    { db := db, fsm := fsm, effects := [], raised := false }

/-- The `Broadcast.waiting_text` handler (`broadcast_get_text`): stores
`message.text` under data key `"text"`, moves to `waiting_confirm`. -/
def broadcast_get_text (db : DB) (fsm : FsmCtx) (m : Msg) : StepResult :=
  { db := db,
    fsm := { state := some .waiting_confirm, dataText := some m.text },
    effects := [.answerMsg "Подтверди отправку: напиши YES или /cancel"],
    raised := false }

/-- Python `str.upper()` as used by the confirmation check
`message.text.upper() != "YES"`: per-character uppercasing (the check only
distinguishes ASCII letters). -/
def pyUpper (s : String) : String := ⟨s.data.map Char.toUpper⟩

/-- The fan-out loop of `broadcast_confirm`: for each id in order, attempt
`bot.send_message` inside `try: ... await asyncio.sleep(0.05) except: pass`;
the `deliver` oracle says whether the send succeeds (on failure the sleep
is skipped and the error swallowed). -/
def fan_out (body : Option String) : List Int → (Int → Bool) → List Effect
  | [], _ => []
  | uid :: rest, deliver =>
      (if deliver uid then [Effect.sendMessage uid body, Effect.sleep]
       else [Effect.sendMessage uid body])
        ++ fan_out body rest deliver

/-- The `Broadcast.waiting_confirm` handler (`broadcast_confirm`):
`message.text.upper()` raises on a textless message; on any text other
than case-insensitive `YES` it replies and leaves the state; on `YES` it
reads `data["text"]` (raising `KeyError` if absent), clears the session,
snapshots `get_all_user_ids`, and runs the fan-out between the start and
completion notices. -/
def broadcast_confirm (db : DB) (fsm : FsmCtx) (m : Msg) (deliver : Int → Bool) : StepResult :=
  match m.text with
  | none => { db := db, fsm := fsm, effects := [], raised := true }
  | some t =>
      if pyUpper t != "YES" then
        { db := db, fsm := fsm, effects := [.answerMsg "Не подтверждено."], raised := false }
      else
        match fsm.dataText with
        | none => { db := db, fsm := fsm, effects := [], raised := true }
        | some body =>
            { db := db, fsm := {},
              effects := [.answerMsg "🚀 Рассылка началась..."]
                ++ fan_out body (get_all_user_ids db) deliver
                ++ [.answerMsg "✅ Рассылка завершена!"],
              raised := false }

/-- The `/cancel` handler: `state.clear()` then a reply. -/
def cancel (db : DB) (fsm : FsmCtx) (m : Msg) : StepResult :=
  { db := db, fsm := {}, effects := [.answerMsg "❌ Отменено."], raised := false }

/-- Message dispatch: aiogram runs message handlers in registration order
(`my_id`, `start`, `admin_panel`, `stats`, `broadcast_start`,
`broadcast_get_text`, `broadcast_confirm`, `cancel`) and the first handler
whose filters accept the update handles it; the state-bound handlers are
registered before `cancel`, so they shadow it while a session is active. -/
def dispatch (admins : List Int) (db : DB) (fsm : FsmCtx) (m : Msg)
    (member : MembershipOutcome) (deliver : Int → Bool) : StepResult :=
  if matchesCommand m.text "id" then my_id db fsm m
  else if matchesCommand m.text "start" then start db fsm m member
  else if matchesCommand m.text "admin" then admin_panel admins db fsm m
  else if matchesCommand m.text "stats" then stats admins db fsm m
  else if matchesCommand m.text "broadcast" then broadcast_start admins db fsm m
  else if fsm.state == some .waiting_text then broadcast_get_text db fsm m
  else if fsm.state == some .waiting_confirm then broadcast_confirm db fsm m deliver
  else if matchesCommand m.text "cancel" then cancel db fsm m
  else { db := db, fsm := fsm, effects := [], raised := false }

/-! ### Helper lemmas about the store operations -/

lemma is_bonus_sent_absent (db : DB) (uid : Int) (h : ∀ r ∈ db, r.user_id ≠ uid) :
    is_bonus_sent db uid = false := by
  have hf : db.find? (fun r => r.user_id == uid) = none :=
    List.find?_eq_none.mpr (fun x hx => by simpa using h x hx)
  simp [is_bonus_sent, hf]

lemma mark_bonus_sent_absent (db : DB) (uid : Int) :
    (∀ r ∈ db, r.user_id ≠ uid) → mark_bonus_sent db uid = db := by
  induction db with
  | nil => intro _; rfl
  | cons a rest ih =>
    intro h
    have h1 : ¬((a.user_id == uid) = true) := by
      simpa using h a (List.mem_cons_self a rest)
    have h2 := ih fun r hr => h r (List.mem_cons_of_mem a hr)
    unfold mark_bonus_sent at h2 ⊢
    rw [List.map_cons, if_neg h1, h2]

/-! ### C1 — the reward-grant flow is idempotent once the flag is set -/

/-- C1: once the stored `bonus_sent` flag is true for a user, the
`check_sub` flow makes no reward delivery call for that user (whatever the
membership outcome and the send oracle), and the flag is still true
afterwards, so any number of further invocations also deliver nothing. -/
theorem check_sub_no_redelivery (db : DB) (uid : Int) (member : MembershipOutcome)
    (sendOk : Bool) (h : is_bonus_sent db uid = true) :
    (∀ v : Int, Effect.sendDocument v ∉ (check_sub db uid member sendOk).effects) ∧
    is_bonus_sent (check_sub db uid member sendOk).db uid = true := by
  cases hm : is_subscribed member with
  | error e => simp [check_sub, hm, h]
  | ok b =>
    cases b with
    | false => simp [check_sub, hm, h]
    | true => simp [check_sub, hm, h]

/-- C1 witness: a concrete store where user 7 already has the flag. -/
theorem check_sub_no_redelivery_witness :
    is_bonus_sent [{ user_id := 7, username := none, first_name := none, bonus_sent := 1 }] 7 = true ∧
    ((∀ v : Int, Effect.sendDocument v ∉
        (check_sub [{ user_id := 7, username := none, first_name := none, bonus_sent := 1 }] 7
          (.status "member") true).effects) ∧
      is_bonus_sent
        (check_sub [{ user_id := 7, username := none, first_name := none, bonus_sent := 1 }] 7
          (.status "member") true).db 7 = true) :=
  ⟨by decide, check_sub_no_redelivery _ 7 (.status "member") true (by decide)⟩

/-! ### C2 — the gate is fail-closed only for `TelegramBadRequest` -/

/-- C2 counterexample: on a transport error other than
`TelegramBadRequest`, `is_subscribed` does not return `false`; the
exception propagates out of it. -/
theorem is_subscribed_other_error_propagates :
    is_subscribed MembershipOutcome.otherError = Except.error () ∧
    is_subscribed MembershipOutcome.otherError ≠ Except.ok false :=
  ⟨rfl, fun h => Except.noConfusion h⟩

/-- C2 amended: `is_subscribed` returns not-granted on a
`TelegramBadRequest` transport error, but any other transport error is
not caught and propagates. -/
theorem is_subscribed_fail_closed_only_on_bad_request :
    is_subscribed MembershipOutcome.badRequest = Except.ok false ∧
    is_subscribed MembershipOutcome.otherError = Except.error () :=
  ⟨rfl, rfl⟩

/-! ### C8 — a failed reward send keeps eligibility but is not reported -/

/-- C8 counterexample: user 5 has a row with the flag unset, membership is
granted, and the reward send fails: the flag stays unset, but the handler
emits no user-visible failure message — its only outbound calls are the
success edit and the failed document send, and the exception escapes the
handler unhandled (`raised = true`). -/
theorem check_sub_send_failure_silent :
    check_sub [{ user_id := 5, username := none, first_name := none, bonus_sent := 0 }] 5
        (.status "member") false =
      { db := [{ user_id := 5, username := none, first_name := none, bonus_sent := 0 }],
        effects := [.editText "✅ Подписка подтверждена!\nЖми «Открыть меню».", .sendDocument 5],
        raised := true } ∧
    is_bonus_sent [{ user_id := 5, username := none, first_name := none, bonus_sent := 0 }] 5
      = false := by
  refine ⟨?_, by decide⟩
  decide

/-- C8 amended: when the reward send fails for a user whose flag is false,
the store is unchanged (the user stays eligible for a retry), but the
failure is not surfaced to the user: the handler's outbound calls are only
the success edit and the failed send, and the exception propagates out of
the handler. -/
theorem check_sub_send_failure_keeps_eligibility (db : DB) (uid : Int)
    (member : MembershipOutcome) (hm : is_subscribed member = Except.ok true)
    (h : is_bonus_sent db uid = false) :
    check_sub db uid member false =
      { db := db,
        effects := [.editText "✅ Подписка подтверждена!\nЖми «Открыть меню».", .sendDocument uid],
        raised := true } ∧
    is_bonus_sent (check_sub db uid member false).db uid = false := by
  have he : check_sub db uid member false =
      { db := db,
        effects := [.editText "✅ Подписка подтверждена!\nЖми «Открыть меню».", .sendDocument uid],
        raised := true } := by
    unfold check_sub
    rw [hm]
    simp [h]
  exact ⟨he, by rw [he]; exact h⟩

/-- C8 witness for the amended claim, at a concrete store and outcome. -/
theorem check_sub_send_failure_keeps_eligibility_witness :
    is_subscribed (.status "member") = Except.ok true ∧
    is_bonus_sent [{ user_id := 5, username := none, first_name := none, bonus_sent := 0 }] 5
      = false ∧
    (check_sub [{ user_id := 5, username := none, first_name := none, bonus_sent := 0 }] 5
        (.status "member") false =
      { db := [{ user_id := 5, username := none, first_name := none, bonus_sent := 0 }],
        effects := [.editText "✅ Подписка подтверждена!\nЖми «Открыть меню».", .sendDocument 5],
        raised := true } ∧
      is_bonus_sent
        (check_sub [{ user_id := 5, username := none, first_name := none, bonus_sent := 0 }] 5
          (.status "member") false).db 5 = false) :=
  ⟨rfl, by decide,
    check_sub_send_failure_keeps_eligibility _ 5 (.status "member") rfl (by decide)⟩

/-! ### C9 — a user with no row stays eligible forever -/

/-- C9: for a user id with no row in the `users` table, `is_bonus_sent`
returns false and `mark_bonus_sent` leaves the table unchanged; hence a
subscribed but never-registered user gets the reward delivered by an
invocation of the `check_sub` flow, the store is left exactly as before,
and the next invocation delivers the reward again. -/
theorem check_sub_unregistered_redelivers (db : DB) (uid : Int)
    (h : ∀ r ∈ db, r.user_id ≠ uid) :
    is_bonus_sent db uid = false ∧
    mark_bonus_sent db uid = db ∧
    (check_sub db uid (.status "member") true).db = db ∧
    Effect.sendDocument uid ∈ (check_sub db uid (.status "member") true).effects ∧
    Effect.sendDocument uid ∈
      (check_sub (check_sub db uid (.status "member") true).db uid
        (.status "member") true).effects := by
  have h1 := is_bonus_sent_absent db uid h
  have h2 := mark_bonus_sent_absent db uid h
  have hm : is_subscribed (.status "member") = Except.ok true := rfl
  have he : check_sub db uid (.status "member") true =
      { db := db,
        effects := [.editText "✅ Подписка подтверждена!\nЖми «Открыть меню».", .sendDocument uid],
        raised := false } := by
    unfold check_sub
    rw [hm]
    simp [h1, h2]
  refine ⟨h1, h2, by rw [he], by rw [he]; simp, ?_⟩
  rw [he]
  rw [he]
  simp

/-- C9 witness: a store holding only user 3, queried for user 5. -/
theorem check_sub_unregistered_redelivers_witness :
    (∀ r ∈ [{ user_id := 3, username := none, first_name := none, bonus_sent := 0 }], UserRow.user_id r ≠ 5) ∧
    (is_bonus_sent [{ user_id := 3, username := none, first_name := none, bonus_sent := 0 }] 5 = false ∧
     mark_bonus_sent [{ user_id := 3, username := none, first_name := none, bonus_sent := 0 }] 5 =
       [{ user_id := 3, username := none, first_name := none, bonus_sent := 0 }] ∧
     (check_sub [{ user_id := 3, username := none, first_name := none, bonus_sent := 0 }] 5
        (.status "member") true).db =
       [{ user_id := 3, username := none, first_name := none, bonus_sent := 0 }] ∧
     Effect.sendDocument 5 ∈
       (check_sub [{ user_id := 3, username := none, first_name := none, bonus_sent := 0 }] 5
         (.status "member") true).effects ∧
     Effect.sendDocument 5 ∈
       (check_sub (check_sub [{ user_id := 3, username := none, first_name := none, bonus_sent := 0 }] 5
           (.status "member") true).db 5 (.status "member") true).effects) :=
  ⟨by decide, check_sub_unregistered_redelivers _ 5 (by decide)⟩

/-! ### Helper lemmas about the broadcast engine -/

lemma broadcast_confirm_eq_of_yes (db : DB) (fsm : FsmCtx) (uid : Int)
    (un fn : Option String) (t : String) (body : Option String) (deliver : Int → Bool)
    (ht : pyUpper t = "YES") (hp : fsm.dataText = some body) :
    broadcast_confirm db fsm ⟨uid, un, fn, some t⟩ deliver =
      { db := db, fsm := {},
        effects := .answerMsg "🚀 Рассылка началась..."
          :: (fan_out body (get_all_user_ids db) deliver
            ++ [.answerMsg "✅ Рассылка завершена!"]),
        raised := false } := by
  simp [broadcast_confirm, ht, hp]

lemma broadcast_confirm_eq_of_not_yes (db : DB) (fsm : FsmCtx) (uid : Int)
    (un fn : Option String) (t : String) (deliver : Int → Bool)
    (ht : pyUpper t ≠ "YES") :
    broadcast_confirm db fsm ⟨uid, un, fn, some t⟩ deliver =
      { db := db, fsm := fsm, effects := [.answerMsg "Не подтверждено."],
        raised := false } := by
  have hne : (pyUpper t != "YES") = true := by simpa [bne_iff_ne] using ht
  simp [broadcast_confirm, hne]

/-- The recipient ids targeted by the `send_message` calls of an effect
trace, in order. -/
def sentTargets (es : List Effect) : List Int :=
  es.filterMap (fun e => match e with
    | .sendMessage uid _ => some uid
    | _ => none)

lemma sentTargets_append (es fs : List Effect) :
    sentTargets (es ++ fs) = sentTargets es ++ sentTargets fs := by
  simp [sentTargets, List.filterMap_append]

lemma sentTargets_cons_answerMsg (s : String) (es : List Effect) :
    sentTargets (Effect.answerMsg s :: es) = sentTargets es := by
  simp [sentTargets, List.filterMap_cons]

lemma sentTargets_fan_out (body : Option String) (ids : List Int) (deliver : Int → Bool) :
    sentTargets (fan_out body ids deliver) = ids := by
  induction ids with
  | nil => rfl
  | cons a rest ih =>
    cases hd : deliver a <;>
      simp [fan_out, hd, sentTargets, List.filterMap_cons] <;>
      simpa [sentTargets] using ih

lemma count_answerMsg_fan_out (body : Option String) (ids : List Int)
    (deliver : Int → Bool) (s : String) :
    (fan_out body ids deliver).count (Effect.answerMsg s) = 0 := by
  induction ids with
  | nil => rfl
  | cons a rest ih =>
    cases hd : deliver a <;>
      simp [fan_out, hd, List.count_append, List.count_cons, ih]

lemma mem_fan_out_sendMessage (body : Option String) (ids : List Int)
    (deliver : Int → Bool) (w : Int) (b : Option String) :
    Effect.sendMessage w b ∈ fan_out body ids deliver → w ∈ ids := by
  induction ids with
  | nil => intro h; simp [fan_out] at h
  | cons a rest ih =>
    intro h
    rw [List.mem_cons]
    cases hd : deliver a
    · simp [fan_out, hd] at h
      rcases h with ⟨h1, _⟩ | h3
      · exact Or.inl h1
      · exact Or.inr (ih h3)
    · simp [fan_out, hd] at h
      rcases h with ⟨h1, _⟩ | h3
      · exact Or.inl h1
      · exact Or.inr (ih h3)

lemma get_all_user_ids_save_user_absent (db : DB) (w : Int) (uw fw : Option String)
    (hw : w ∉ get_all_user_ids db) :
    get_all_user_ids (save_user db w uw fw) = get_all_user_ids db ++ [w] := by
  have hany : ¬(db.any (fun r => r.user_id == w) = true) := by
    intro hc
    rcases List.any_eq_true.mp hc with ⟨r, hr, he⟩
    exact hw (List.mem_map.mpr ⟨r, hr, by simpa using he⟩)
  unfold save_user
  rw [if_neg hany]
  simp [get_all_user_ids]

/-! ### C4 — the confirmation step of the broadcast session -/

/-- C4: in the `waiting_confirm` state with a stored pending text, a
message whose text upper-cases to `YES` clears the session and runs the
fan-out over the snapshot of recipient ids using the stored text, framed
by the start and completion notices; any other text gets the
"not confirmed" reply and leaves the whole session context (state and
pending text) unchanged. -/
theorem broadcast_confirm_token_spec (db : DB) (fsm : FsmCtx) (uid : Int)
    (un fn : Option String) (t : String) (body : Option String) (deliver : Int → Bool)
    (hp : fsm.dataText = some body) :
    (pyUpper t = "YES" →
      broadcast_confirm db fsm ⟨uid, un, fn, some t⟩ deliver =
        { db := db, fsm := {},
          effects := .answerMsg "🚀 Рассылка началась..."
            :: (fan_out body (get_all_user_ids db) deliver
              ++ [.answerMsg "✅ Рассылка завершена!"]),
          raised := false }) ∧
    (pyUpper t ≠ "YES" →
      broadcast_confirm db fsm ⟨uid, un, fn, some t⟩ deliver =
        { db := db, fsm := fsm, effects := [.answerMsg "Не подтверждено."],
          raised := false }) :=
  ⟨fun ht => broadcast_confirm_eq_of_yes db fsm uid un fn t body deliver ht hp,
   fun ht => broadcast_confirm_eq_of_not_yes db fsm uid un fn t deliver ht⟩

/-- C4 witness: lower-case "yes" in a concrete session. -/
theorem broadcast_confirm_token_spec_witness :
    ({ state := some BState.waiting_confirm, dataText := some (some "hello") } : FsmCtx).dataText
      = some (some "hello") ∧
    ((pyUpper "yes" = "YES" →
      broadcast_confirm [] { state := some BState.waiting_confirm, dataText := some (some "hello") }
          ⟨1, none, none, some "yes"⟩ (fun _ => true) =
        { db := [], fsm := {},
          effects := .answerMsg "🚀 Рассылка началась..."
            :: (fan_out (some "hello") (get_all_user_ids []) (fun _ => true)
              ++ [.answerMsg "✅ Рассылка завершена!"]),
          raised := false }) ∧
    (pyUpper "yes" ≠ "YES" →
      broadcast_confirm [] { state := some BState.waiting_confirm, dataText := some (some "hello") }
          ⟨1, none, none, some "yes"⟩ (fun _ => true) =
        { db := [],
          fsm := { state := some BState.waiting_confirm, dataText := some (some "hello") },
          effects := [.answerMsg "Не подтверждено."], raised := false })) :=
  ⟨rfl, broadcast_confirm_token_spec []
    { state := some BState.waiting_confirm, dataText := some (some "hello") }
    1 none none "yes" (some "hello") (fun _ => true) rfl⟩

/-! ### C5 — fan-out failure isolation and the completion notice -/

/-- C5: a confirmed broadcast attempts delivery to every id of the
snapshot, in order, for an arbitrary per-recipient success oracle (a
failed recipient is swallowed and the loop continues), and the completion
notice appears exactly once in the trace, after the whole loop. -/
theorem broadcast_fanout_isolation (db : DB) (fsm : FsmCtx) (uid : Int)
    (un fn : Option String) (body : Option String) (deliver : Int → Bool)
    (hp : fsm.dataText = some body) :
    (broadcast_confirm db fsm ⟨uid, un, fn, some "YES"⟩ deliver).effects
      = .answerMsg "🚀 Рассылка началась..."
        :: (fan_out body (get_all_user_ids db) deliver
          ++ [.answerMsg "✅ Рассылка завершена!"]) ∧
    sentTargets (fan_out body (get_all_user_ids db) deliver) = get_all_user_ids db ∧
    (fan_out body (get_all_user_ids db) deliver).count
      (Effect.answerMsg "✅ Рассылка завершена!") = 0 ∧
    (broadcast_confirm db fsm ⟨uid, un, fn, some "YES"⟩ deliver).effects.count
      (Effect.answerMsg "✅ Рассылка завершена!") = 1 := by
  have he := broadcast_confirm_eq_of_yes db fsm uid un fn "YES" body deliver (by decide) hp
  have hc := count_answerMsg_fan_out body (get_all_user_ids db) deliver "✅ Рассылка завершена!"
  refine ⟨by rw [he], sentTargets_fan_out body _ deliver, hc, ?_⟩
  rw [he]
  simp [List.count_cons, List.count_append, hc]

/-- C5 witness: three recipients, delivery to the middle one fails. -/
theorem broadcast_fanout_isolation_witness :
    ({ state := some BState.waiting_confirm, dataText := some (some "t") } : FsmCtx).dataText
      = some (some "t") ∧
    ((broadcast_confirm
        [{ user_id := 1, username := none, first_name := none, bonus_sent := 0 },
         { user_id := 2, username := none, first_name := none, bonus_sent := 0 },
         { user_id := 3, username := none, first_name := none, bonus_sent := 0 }]
        { state := some BState.waiting_confirm, dataText := some (some "t") }
        ⟨1, none, none, some "YES"⟩ (fun u => u != 2)).effects
      = .answerMsg "🚀 Рассылка началась..."
        :: (fan_out (some "t")
            (get_all_user_ids
              [{ user_id := 1, username := none, first_name := none, bonus_sent := 0 },
               { user_id := 2, username := none, first_name := none, bonus_sent := 0 },
               { user_id := 3, username := none, first_name := none, bonus_sent := 0 }])
            (fun u => u != 2)
          ++ [.answerMsg "✅ Рассылка завершена!"]) ∧
    sentTargets (fan_out (some "t")
        (get_all_user_ids
          [{ user_id := 1, username := none, first_name := none, bonus_sent := 0 },
           { user_id := 2, username := none, first_name := none, bonus_sent := 0 },
           { user_id := 3, username := none, first_name := none, bonus_sent := 0 }])
        (fun u => u != 2))
      = get_all_user_ids
          [{ user_id := 1, username := none, first_name := none, bonus_sent := 0 },
           { user_id := 2, username := none, first_name := none, bonus_sent := 0 },
           { user_id := 3, username := none, first_name := none, bonus_sent := 0 }] ∧
    (fan_out (some "t")
        (get_all_user_ids
          [{ user_id := 1, username := none, first_name := none, bonus_sent := 0 },
           { user_id := 2, username := none, first_name := none, bonus_sent := 0 },
           { user_id := 3, username := none, first_name := none, bonus_sent := 0 }])
        (fun u => u != 2)).count (Effect.answerMsg "✅ Рассылка завершена!") = 0 ∧
    (broadcast_confirm
        [{ user_id := 1, username := none, first_name := none, bonus_sent := 0 },
         { user_id := 2, username := none, first_name := none, bonus_sent := 0 },
         { user_id := 3, username := none, first_name := none, bonus_sent := 0 }]
        { state := some BState.waiting_confirm, dataText := some (some "t") }
        ⟨1, none, none, some "YES"⟩ (fun u => u != 2)).effects.count
      (Effect.answerMsg "✅ Рассылка завершена!") = 1) :=
  ⟨rfl, broadcast_fanout_isolation
    [{ user_id := 1, username := none, first_name := none, bonus_sent := 0 },
     { user_id := 2, username := none, first_name := none, bonus_sent := 0 },
     { user_id := 3, username := none, first_name := none, bonus_sent := 0 }]
    { state := some BState.waiting_confirm, dataText := some (some "t") }
    1 none none (some "t") (fun u => u != 2) rfl⟩

/-! ### C6 — the broadcast audience is fixed at confirmation time -/

/-- C6: the fan-out of a confirmed broadcast targets exactly the snapshot
of recipient ids read from the store at launch; a recipient id `w` not in
the store at confirmation time receives no delivery from that run, even
though inserting it afterwards (`save_user`) puts it in the store. -/
theorem broadcast_snapshot_fixed (db : DB) (fsm : FsmCtx) (uid w : Int)
    (un fn uw fw : Option String) (body : Option String) (deliver : Int → Bool)
    (hp : fsm.dataText = some body) (hw : w ∉ get_all_user_ids db) :
    (∀ b, Effect.sendMessage w b ∉
      (broadcast_confirm db fsm ⟨uid, un, fn, some "YES"⟩ deliver).effects) ∧
    w ∈ get_all_user_ids (save_user db w uw fw) := by
  have he := broadcast_confirm_eq_of_yes db fsm uid un fn "YES" body deliver (by decide) hp
  constructor
  · intro b hmem
    rw [he] at hmem
    simp at hmem
    exact hw (mem_fan_out_sendMessage body _ deliver w b hmem)
  · rw [get_all_user_ids_save_user_absent db w uw fw hw]
    simp

/-- C6 witness: user 42 is absent from a one-row store at confirmation. -/
theorem broadcast_snapshot_fixed_witness :
    ({ state := some BState.waiting_confirm, dataText := some (some "t") } : FsmCtx).dataText
      = some (some "t") ∧
    (42 : Int) ∉ get_all_user_ids
      [{ user_id := 1, username := none, first_name := none, bonus_sent := 0 }] ∧
    ((∀ b, Effect.sendMessage 42 b ∉
        (broadcast_confirm
          [{ user_id := 1, username := none, first_name := none, bonus_sent := 0 }]
          { state := some BState.waiting_confirm, dataText := some (some "t") }
          ⟨1, none, none, some "YES"⟩ (fun _ => true)).effects) ∧
      (42 : Int) ∈ get_all_user_ids
        (save_user [{ user_id := 1, username := none, first_name := none, bonus_sent := 0 }]
          42 none none)) :=
  ⟨rfl, by decide,
    broadcast_snapshot_fixed
      [{ user_id := 1, username := none, first_name := none, bonus_sent := 0 }]
      { state := some BState.waiting_confirm, dataText := some (some "t") }
      1 42 none none none none (some "t") (fun _ => true) rfl (by decide)⟩

/-! ### C7 — the broadcast-start command is invisible to non-operators -/

/-- C7: for a sender not in the operator allow-list, dispatching the
`/broadcast` command is a complete no-op — whatever the FSM state: the
store, the session context and the outbound trace are all unchanged and
nothing is emitted. -/
theorem broadcast_start_invisible_to_non_operators (admins : List Int) (db : DB)
    (fsm : FsmCtx) (uid : Int) (un fn : Option String) (member : MembershipOutcome)
    (deliver : Int → Bool) (h : is_admin admins uid = false) :
    dispatch admins db fsm ⟨uid, un, fn, some "/broadcast"⟩ member deliver =
      { db := db, fsm := fsm, effects := [], raised := false } := by
  have h1 : matchesCommand (some "/broadcast") "id" = false := by decide
  have h2 : matchesCommand (some "/broadcast") "start" = false := by decide
  have h3 : matchesCommand (some "/broadcast") "admin" = false := by decide
  have h4 : matchesCommand (some "/broadcast") "stats" = false := by decide
  have h5 : matchesCommand (some "/broadcast") "broadcast" = true := by decide
  simp [dispatch, h1, h2, h3, h4, h5, broadcast_start, h]

/-- C7 witness: non-admin 2 sends `/broadcast` while a session of some
other shape is around. -/
theorem broadcast_start_invisible_witness :
    is_admin [1] 2 = false ∧
    dispatch [1] [] { state := some BState.waiting_confirm, dataText := some (some "t") }
        ⟨2, none, none, some "/broadcast"⟩ .badRequest (fun _ => true) =
      { db := [], fsm := { state := some BState.waiting_confirm, dataText := some (some "t") },
        effects := [], raised := false } :=
  ⟨by decide,
    broadcast_start_invisible_to_non_operators [1] []
      { state := some BState.waiting_confirm, dataText := some (some "t") }
      2 none none .badRequest (fun _ => true) (by decide)⟩

/-! ### C3 — the cancel command is shadowed inside an active session -/

/-- C3: the `/cancel` handler is registered after the state-bound
handlers, so in the `waiting_text` phase the message "/cancel" is captured
as the pending broadcast text (and the session advances to
`waiting_confirm`), and in the `waiting_confirm` phase it gets the
"not confirmed" reply with the session left intact — the session is never
cleared, contradicting the specified cancel transition. -/
theorem cancel_shadowed_in_active_session :
    dispatch [1] [] { state := some BState.waiting_text, dataText := none }
        ⟨1, none, none, some "/cancel"⟩ .badRequest (fun _ => true) =
      { db := [],
        fsm := { state := some BState.waiting_confirm, dataText := some (some "/cancel") },
        effects := [.answerMsg "Подтверди отправку: напиши YES или /cancel"],
        raised := false } ∧
    dispatch [1] [] { state := some BState.waiting_confirm, dataText := some (some "hi") }
        ⟨1, none, none, some "/cancel"⟩ .badRequest (fun _ => true) =
      { db := [],
        fsm := { state := some BState.waiting_confirm, dataText := some (some "hi") },
        effects := [.answerMsg "Не подтверждено."],
        raised := false } := by
  constructor
  · decide
  · decide

/-! ### C10 — the confirmation handler crashes on a textless message -/

/-- C10: in the `waiting_confirm` phase a message with no text (photo,
sticker, ...) reaches `broadcast_confirm` through the dispatcher, where
`message.text.upper()` is evaluated on `None`: the handler raises instead
of replying, leaving the session as it was — the handler is not total
over the public message interface. -/
theorem broadcast_confirm_crashes_on_textless (admins : List Int) (db : DB)
    (fsm : FsmCtx) (uid : Int) (un fn : Option String) (member : MembershipOutcome)
    (deliver : Int → Bool) (h : fsm.state = some BState.waiting_confirm) :
    dispatch admins db fsm ⟨uid, un, fn, none⟩ member deliver =
      { db := db, fsm := fsm, effects := [], raised := true } := by
  simp [dispatch, matchesCommand, h, broadcast_confirm]

/-- C10 witness: a textless message in a concrete `waiting_confirm`
session. -/
theorem broadcast_confirm_crashes_on_textless_witness :
    ({ state := some BState.waiting_confirm, dataText := some (some "t") } : FsmCtx).state
      = some BState.waiting_confirm ∧
    dispatch [1] [] { state := some BState.waiting_confirm, dataText := some (some "t") }
        ⟨1, none, none, none⟩ .badRequest (fun _ => true) =
      { db := [], fsm := { state := some BState.waiting_confirm, dataText := some (some "t") },
        effects := [], raised := true } :=
  ⟨rfl,
    broadcast_confirm_crashes_on_textless [1] []
      { state := some BState.waiting_confirm, dataText := some (some "t") }
      1 none none .badRequest (fun _ => true) rfl⟩

end TgBot
